import Mathlib

/-!
Shallow embedding of the photo-map application's lifecycle core:

* `src/src/App.tsx` — `capturePhoto`, `handleLike`, `handleDislike`,
  `isMarkerExpired` (the client-side Lifecycle Engine);
* `src/src/supabase.ts` — the `photo_markers` row shape and the store
  operations `addMarker` / `updateMarker` (plain insert / update-by-id);
* `src/supabase/functions/delete-expired-photos/index.ts` — the Reaper
  edge function (fetch expired rows, best-effort asset removal, batch
  record delete).

Timestamps are milliseconds since the epoch, as produced by `Date.now()`
and `new Date(iso).getTime()` in the source; they are modelled as `Int`
so that the unclamped expiry arithmetic is represented exactly.
-/

namespace PhotoMap

/-- Millisecond timestamps, as in `Date.now()`. -/
abbrev Time := Int

/-- BASE_LIFESPAN: 168 hours = 7 days in milliseconds. `handleLike` and
`handleDislike` in `App.tsx` use `168 * 60 * 60 * 1000`. -/
def BASE_LIFESPAN_MS : Int := 168 * 60 * 60 * 1000

/-- A row of the `photo_markers` table, following the `PhotoMarker` type of
`supabase.ts` together with the extra fields `App.tsx` adds
(`thumbnail_url`, `expires_at`, `h3_res7`). `expires_at = none` models the
SQL NULL ("infinite life"); `h3_res7` is the zone key computed by
`latLngToCell(lat, lng, 7)` at creation. -/
structure PhotoMarker where
  id : Nat
  position : Int × Int
  photo_url : String
  thumbnail_url : Option String
  timestamp : Time
  likes : Nat
  dislikes : Nat
  created_by : String
  last_interaction : Time
  h3_res7 : Option String
  expires_at : Option Time
deriving DecidableEq, Repr

/-- The marker record built in `capturePhoto` (App.tsx): `likes: 0`,
`dislikes: 0`, `expires_at: null`, `h3_res7: latLngToCell(...)`,
`created_by: userInitials || 'Anonymous'`. The zone index `h3Index`
computed by the external `h3-js` library is taken as an input; `newId` is
the id the store assigns on insert. -/
def newMarker (newId : Nat) (pos : Int × Int) (photoUrl thumbUrl : String)
    (now : Time) (userInitials : String) (h3Index : String) : PhotoMarker :=
  { id := newId
    position := pos
    photo_url := photoUrl
    thumbnail_url := some thumbUrl
    timestamp := now
    likes := 0
    dislikes := 0
    created_by := if userInitials = "" then "Anonymous" else userInitials
    last_interaction := now
    h3_res7 := some h3Index
    expires_at := none }

/-- Store effect of `capturePhoto` (App.tsx) followed by
`database.addMarker` (supabase.ts): the new record is inserted and the
client prepends it (`setMarkers(prev => [savedMarker, ...prev])`). No
other row is read or written. -/
def capturePhoto (store : List PhotoMarker) (newId : Nat) (pos : Int × Int)
    (photoUrl thumbUrl : String) (now : Time) (userInitials : String)
    (h3Index : String) : List PhotoMarker :=
  newMarker newId pos photoUrl thumbUrl now userInitials h3Index :: store

/-- The client-side `isMarkerExpired` (App.tsx): a marker with
`expires_at = null` is never expired; otherwise it is expired iff
`Date.now() > new Date(expires_at).getTime()`. -/
def isMarkerExpired (now : Time) (m : PhotoMarker) : Bool :=
  match m.expires_at with
  | none => false
  | some t => now > t

/-- Zone population as the spec defines it: the count of non-expired
photos sharing a `zone_id` (here the `h3_res7` cell). -/
def zonePopulation (store : List PhotoMarker) (z : String) (now : Time) : Nat :=
  (store.filter (fun m => m.h3_res7 == some z && !isMarkerExpired now m)).length

/-- Per-photo interaction memory of the client session
(`cardInteractions[markerId] = 'like' | 'dislike'` in App.tsx). -/
inductive Interaction where
  | like
  | dislike
deriving DecidableEq, Repr

/-- Client session state of App.tsx restricted to the lifecycle core: the
marker store view, the per-photo interaction memory, and the actor's
cumulative `userLikes` / `userDislikes` counters. -/
structure AppState where
  markers : List PhotoMarker
  cardInteractions : List (Nat × Interaction)
  userLikes : Nat
  userDislikes : Nat
deriving DecidableEq, Repr

/-- Effect of `handleLike` (App.tsx): rejected when the session already
interacted with the photo; otherwise, if the marker is found, the store
row with that id is updated to `likes = marker.likes + 1`,
`expires_at = expires_at + 168h` when finite (`null` stays `null`),
`last_interaction = Date.now()`, the interaction is recorded and
`userLikes` is incremented. -/
def handleLike (s : AppState) (markerId : Nat) (now : Time) : AppState :=
  match s.cardInteractions.lookup markerId with
  | some _ => s
  | none =>
    match s.markers.find? (fun m => m.id == markerId) with
    | none => s
    | some marker =>
      let newExpiresAt : Option Time :=
        match marker.expires_at with
        | none => none
        | some t => some (t + BASE_LIFESPAN_MS)
      { markers := s.markers.map (fun m =>
          if m.id == markerId then
            { m with likes := marker.likes + 1, expires_at := newExpiresAt,
                     last_interaction := now }
          else m)
        cardInteractions := (markerId, Interaction.like) :: s.cardInteractions
        userLikes := s.userLikes + 1
        userDislikes := s.userDislikes }

/-- Effect of `handleDislike` (App.tsx): rejected when the session already
interacted with the photo; rejected when `userLikes <= userDislikes`
(the dislike gate); otherwise, if the marker is found, the row is updated
to `dislikes = marker.dislikes + 1`, `expires_at = expires_at - 168h`
when finite (`null` stays `null`), `last_interaction = Date.now()`, the
interaction is recorded and `userDislikes` is incremented. -/
def handleDislike (s : AppState) (markerId : Nat) (now : Time) : AppState :=
  match s.cardInteractions.lookup markerId with
  | some _ => s
  | none =>
    if s.userLikes ≤ s.userDislikes then s
    else
      match s.markers.find? (fun m => m.id == markerId) with
      | none => s
      | some marker =>
        let newExpiresAt : Option Time :=
          match marker.expires_at with
          | none => none
          | some t => some (t - BASE_LIFESPAN_MS)
        { markers := s.markers.map (fun m =>
            if m.id == markerId then
              { m with dislikes := marker.dislikes + 1, expires_at := newExpiresAt,
                       last_interaction := now }
            else m)
          cardInteractions := (markerId, Interaction.dislike) :: s.cardInteractions
          userLikes := s.userLikes
          userDislikes := s.userDislikes + 1 }

/-- The Reaper's expiry test, from the edge function's query
`.not('expires_at', 'is', null).lt('expires_at', nowIso)`: a non-null
`expires_at` strictly earlier than the sweep time. -/
def isExpiredForSweep (now : Time) (m : PhotoMarker) : Bool :=
  match m.expires_at with
  | none => false
  | some t => t < now

/-- Storage path of the full-resolution asset, from the edge function:
the URL must contain `/full/` (`photo_url.includes('/full/')`, equivalent
to `splitOn` producing more than one part) and the part after the first
`/full/` (`photo_url.split('/full/')[1]`) must be non-empty. -/
def fullAssetPath (url : String) : Option String :=
  let parts := url.splitOn "/full/"
  if parts.length > 1 then
    match parts[1]? with
    | some p => if p = "" then none else some ("full/" ++ p)
    | none => none
  else none

/-- Storage path of the thumbnail asset, analogous to `fullAssetPath`
but with the `/thumb/` segment, and guarded by `thumbnail_url` being
present (`marker.thumbnail_url && ...`). -/
def thumbAssetPath (turl : Option String) : Option String :=
  match turl with
  | none => none
  | some url =>
    let parts := url.splitOn "/thumb/"
    if parts.length > 1 then
      match parts[1]? with
      | some p => if p = "" then none else some ("thumb/" ++ p)
      | none => none
    else none

/-- Blob-storage paths the sweep attempts to remove for one expired
marker. -/
def sweepAssetPaths (m : PhotoMarker) : List String :=
  (fullAssetPath m.photo_url).toList ++ (thumbAssetPath m.thumbnail_url).toList

/-- Response of the Reaper edge function: either a 200 with a deleted
count, or a 500 carrying the store error message. -/
inductive SweepResponse where
  | ok (deleted : Nat)
  | err (msg : String)
deriving DecidableEq, Repr

/-- Result of one sweep: the marker store after it, the blob storage
after it, and the HTTP response. -/
structure SweepOut where
  store : List PhotoMarker
  blobs : List String
  resp : SweepResponse
deriving DecidableEq, Repr

/-- The Reaper edge function (`delete-expired-photos/index.ts`). The
store is the `photo_markers` rows, `blobs` the set of blob-storage paths.
`fetchError` / `deleteError` model the `error` fields of the select and
delete calls; `assetRemoveOk` models whether each `storage.remove` call
succeeds (the source ignores its result entirely). Steps, in source
order: abort with 500 on fetch error; answer `deleted: 0` when no row
has a non-null `expires_at < now`; best-effort removal of each expired
row's assets; abort with 500 on delete error; otherwise delete the rows
whose id was collected and answer with their count. -/
def sweep (store : List PhotoMarker) (blobs : List String) (now : Time)
    (fetchError : Option String) (deleteError : Option String)
    (assetRemoveOk : String → Bool) : SweepOut :=
  match fetchError with
  | some e => ⟨store, blobs, SweepResponse.err e⟩
  | none =>
    let expired := store.filter (isExpiredForSweep now)
    if expired.isEmpty then ⟨store, blobs, SweepResponse.ok 0⟩
    else
      let targets := (expired.map sweepAssetPaths).flatten
      let blobs' := blobs.filter (fun p => !(targets.contains p && assetRemoveOk p))
      match deleteError with
      | some e => ⟨store, blobs', SweepResponse.err e⟩
      | none =>
        let expiredIds := expired.map (fun m => m.id)
        ⟨store.filter (fun m => !expiredIds.contains m.id), blobs',
         SweepResponse.ok expiredIds.length⟩

/-- States of the shared `photo_markers` store reachable through the
operations the code provides, starting from an empty table: a
`capturePhoto` insert, a `handleLike` or `handleDislike` by any client
session (arbitrary session-local state), or a Reaper sweep (arbitrary
error outcomes and blob storage). -/
inductive StoreReach : List PhotoMarker → Prop where
  | init : StoreReach []
  | create (st : List PhotoMarker) (newId : Nat) (pos : Int × Int)
      (photoUrl thumbUrl : String) (now : Time) (userInitials h3Index : String)
      (h : StoreReach st) :
      StoreReach (capturePhoto st newId pos photoUrl thumbUrl now userInitials h3Index)
  | like (st : List PhotoMarker) (ci : List (Nat × Interaction)) (ul ud : Nat)
      (markerId : Nat) (now : Time) (h : StoreReach st) :
      StoreReach (handleLike ⟨st, ci, ul, ud⟩ markerId now).markers
  | dislike (st : List PhotoMarker) (ci : List (Nat × Interaction)) (ul ud : Nat)
      (markerId : Nat) (now : Time) (h : StoreReach st) :
      StoreReach (handleDislike ⟨st, ci, ul, ud⟩ markerId now).markers
  | reap (st : List PhotoMarker) (blobs : List String) (now : Time)
      (fetchError deleteError : Option String) (assetRemoveOk : String → Bool)
      (h : StoreReach st) :
      StoreReach (sweep st blobs now fetchError deleteError assetRemoveOk).store

/-- Concrete marker in zone "z1", used by the demonstration stores. -/
def demoMarker (i likeCount dislikeCount : Nat) (e : Option Time) : PhotoMarker :=
  { id := i
    position := (0, 0)
    photo_url := ""
    thumbnail_url := none
    timestamp := 0
    likes := likeCount
    dislikes := dislikeCount
    created_by := "AB"
    last_interaction := 0
    h3_res7 := some "z1"
    expires_at := e }

/-- Seven photos in zone "z1", all infinite, the first with accumulated
counters. -/
def demoStore7 : List PhotoMarker :=
  [demoMarker 1 5 3 none, demoMarker 2 0 0 none, demoMarker 3 0 0 none,
   demoMarker 4 0 0 none, demoMarker 5 0 0 none, demoMarker 6 0 0 none,
   demoMarker 7 0 0 none]

/-- Eight finite photos in zone "z1"; ids 1 and 2 are expired at time
1000, the other six are not and carry accumulated counters. -/
def demoStore8 : List PhotoMarker :=
  [demoMarker 1 0 0 (some 500), demoMarker 2 1 0 (some 400),
   demoMarker 3 4 1 (some 5000), demoMarker 4 0 0 (some 5000),
   demoMarker 5 0 0 (some 5000), demoMarker 6 2 0 (some 6000),
   demoMarker 7 0 0 (some 5000), demoMarker 8 0 0 (some 5000)]

/-- Session that has already liked photo 1 and has a positive like
balance. -/
def demoStateC5 : AppState :=
  ⟨[demoMarker 1 0 0 (some 5000)], [(1, Interaction.like)], 2, 0⟩

/-- Finite photo created at time 1000 with expiry 2000, for the
unclamped-dislike demonstration. -/
def demoMarkerC10 : PhotoMarker :=
  { demoMarker 1 0 0 (some 2000) with timestamp := 1000 }

/-- Session holding photo `demoMarkerC10`, no prior interactions, and a
positive like balance. -/
def demoStateC10 : AppState :=
  ⟨[demoMarkerC10], [], 1, 0⟩

/-- Auxiliary: searching a mapped list by a predicate the mapping
preserves pointwise finds the image of the original hit. -/
theorem find?_map_of_pres {α : Type} (p : α → Bool) (f : α → α)
    (hp : ∀ x, p (f x) = p x) :
    ∀ l : List α, (l.map f).find? p = (l.find? p).map f := by
  intro l
  induction l with
  | nil => rfl
  | cons a l ih =>
    cases h : p a with
    | false =>
      have hfa : p (f a) = false := (hp a).trans h
      simp only [List.map_cons, List.find?_cons, h, hfa, ih]
    | true =>
      have hfa : p (f a) = true := (hp a).trans h
      simp only [List.map_cons, List.find?_cons, h, hfa, Option.map_some']

/-- C1: the claim states that a photo creation bringing a zone's
population to 8 or more resets likes/dislikes to 0 and sets
`expires_at = now + BASE_LIFESPAN` for every photo of the zone. The code
performs no such rebalance: creating an 8th photo in zone "z1" leaves
every existing photo untouched (a marker keeps `likes = 5`) and no photo
of the resulting zone of population 8 has the uniform finite expiry —
all expiries are still `null`. -/
theorem c1_create_in_full_zone_resets_nothing :
    zonePopulation (capturePhoto demoStore7 8 (0, 0) "p" "t" 1000 "AB" "z1") "z1" 1000 = 8 ∧
    demoMarker 1 5 3 none ∈ capturePhoto demoStore7 8 (0, 0) "p" "t" 1000 "AB" "z1" ∧
    (demoMarker 1 5 3 none).likes = 5 ∧
    ∀ m ∈ capturePhoto demoStore7 8 (0, 0) "p" "t" 1000 "AB" "z1",
      m.expires_at ≠ some (1000 + BASE_LIFESPAN_MS) := by
  decide

/-- C3: the claim states that when deletions drop a zone's population to
at most 7, the remaining photos of the zone revert to
`expires_at = null`. The Reaper deletes the two expired photos of a zone
of 8 (reporting `deleted: 2`, population drops to 6) but performs no
zone re-evaluation: each of the six remaining photos keeps its non-null
`expires_at` (counters are indeed untouched). -/
theorem c3_reaper_does_not_revert_zone :
    (sweep demoStore8 [] 1000 none none (fun _ => true)).resp = SweepResponse.ok 2 ∧
    (sweep demoStore8 [] 1000 none none (fun _ => true)).store =
      [demoMarker 3 4 1 (some 5000), demoMarker 4 0 0 (some 5000),
       demoMarker 5 0 0 (some 5000), demoMarker 6 2 0 (some 6000),
       demoMarker 7 0 0 (some 5000), demoMarker 8 0 0 (some 5000)] ∧
    zonePopulation (sweep demoStore8 [] 1000 none none (fun _ => true)).store "z1" 1000 = 6 ∧
    ∀ m ∈ (sweep demoStore8 [] 1000 none none (fun _ => true)).store,
      m.expires_at ≠ none := by
  decide

/-- C6 counterexample: the claim states the sweep deletes exactly the
photos with non-null `expires_at ≤ now`. A photo whose `expires_at`
equals the sweep time satisfies `expires_at ≤ now`, yet the sweep (whose
query is the strict `.lt('expires_at', nowIso)`) deletes nothing and
answers `deleted: 0`. -/
theorem c6_boundary_counterexample :
    (demoMarker 1 0 0 (some 100)).expires_at = some 100 ∧ (100 : Int) ≤ 100 ∧
    sweep [demoMarker 1 0 0 (some 100)] [] 100 none none (fun _ => true) =
      ⟨[demoMarker 1 0 0 (some 100)], [], SweepResponse.ok 0⟩ := by
  decide

/-- C5 counterexample: the claim states that any dislike attempt by an
actor whose cumulative likes exceed their cumulative dislikes, on a
FINITE photo, decrements the expiry and increments `dislikes`. An actor
with `userLikes = 2 > 0 = userDislikes` who has already interacted with
the photo is rejected by the prior-interaction guard (checked before the
gate): the state is completely unchanged. -/
theorem c5_gated_dislike_counterexample :
    demoStateC5.userDislikes < demoStateC5.userLikes ∧
    (∃ m ∈ demoStateC5.markers, m.id = 1 ∧ m.expires_at ≠ none) ∧
    handleDislike demoStateC5 1 6000 = demoStateC5 := by
  decide

/-- C9: `capturePhoto` inserts exactly one new record, which starts with
`likes = 0`, `dislikes = 0` and `expires_at = null`, and every existing
photo is carried over unchanged (the result is exactly the new record
prepended to the old store), so creation never resets a counter or an
expiry of another photo. -/
theorem c9_create_frame (store : List PhotoMarker) (newId : Nat)
    (pos : Int × Int) (photoUrl thumbUrl : String) (now : Time)
    (userInitials h3Index : String) :
    capturePhoto store newId pos photoUrl thumbUrl now userInitials h3Index =
      newMarker newId pos photoUrl thumbUrl now userInitials h3Index :: store ∧
    (newMarker newId pos photoUrl thumbUrl now userInitials h3Index).likes = 0 ∧
    (newMarker newId pos photoUrl thumbUrl now userInitials h3Index).dislikes = 0 ∧
    (newMarker newId pos photoUrl thumbUrl now userInitials h3Index).expires_at = none :=
  ⟨rfl, rfl, rfl, rfl⟩

/-- Effect of a non-rejected `handleLike` on the full session state. -/
theorem handleLike_found (s : AppState) (markerId : Nat) (now : Time)
    (marker : PhotoMarker)
    (hci : s.cardInteractions.lookup markerId = none)
    (hfind : s.markers.find? (fun m => m.id == markerId) = some marker) :
    handleLike s markerId now =
      { markers := s.markers.map (fun m =>
          if m.id == markerId then
            { m with likes := marker.likes + 1,
                     expires_at := match marker.expires_at with
                       | none => none
                       | some t => some (t + BASE_LIFESPAN_MS),
                     last_interaction := now }
          else m)
        cardInteractions := (markerId, Interaction.like) :: s.cardInteractions
        userLikes := s.userLikes + 1
        userDislikes := s.userDislikes } := by
  unfold handleLike
  rw [hci, hfind]

/-- Effect of a non-rejected `handleDislike` on the full session state. -/
theorem handleDislike_found (s : AppState) (markerId : Nat) (now : Time)
    (marker : PhotoMarker)
    (hci : s.cardInteractions.lookup markerId = none)
    (hgate : s.userDislikes < s.userLikes)
    (hfind : s.markers.find? (fun m => m.id == markerId) = some marker) :
    handleDislike s markerId now =
      { markers := s.markers.map (fun m =>
          if m.id == markerId then
            { m with dislikes := marker.dislikes + 1,
                     expires_at := match marker.expires_at with
                       | none => none
                       | some t => some (t - BASE_LIFESPAN_MS),
                     last_interaction := now }
          else m)
        cardInteractions := (markerId, Interaction.dislike) :: s.cardInteractions
        userLikes := s.userLikes
        userDislikes := s.userDislikes + 1 } := by
  unfold handleDislike
  rw [hci, if_neg (Nat.not_le.mpr hgate), hfind]

/-- Searching the updated store by the liked photo's id finds the
like-updated row. -/
theorem handleLike_find? (s : AppState) (markerId : Nat) (now : Time)
    (marker : PhotoMarker)
    (hci : s.cardInteractions.lookup markerId = none)
    (hfind : s.markers.find? (fun m => m.id == markerId) = some marker) :
    (handleLike s markerId now).markers.find? (fun m => m.id == markerId) =
      some { marker with
             likes := marker.likes + 1,
             expires_at := match marker.expires_at with
               | none => none
               | some t => some (t + BASE_LIFESPAN_MS),
             last_interaction := now } := by
  simp only [handleLike_found s markerId now marker hci hfind]
  have hid : (marker.id == markerId) = true := by
    simpa using List.find?_some hfind
  rw [find?_map_of_pres (fun m => m.id == markerId) _ ?hp s.markers, hfind,
    Option.map_some', if_pos hid]
  case hp =>
    intro x
    by_cases hx : (x.id == markerId) = true
    · rw [if_pos hx]
    · rw [if_neg hx]

/-- Searching the updated store by the disliked photo's id finds the
dislike-updated row. -/
theorem handleDislike_find? (s : AppState) (markerId : Nat) (now : Time)
    (marker : PhotoMarker)
    (hci : s.cardInteractions.lookup markerId = none)
    (hgate : s.userDislikes < s.userLikes)
    (hfind : s.markers.find? (fun m => m.id == markerId) = some marker) :
    (handleDislike s markerId now).markers.find? (fun m => m.id == markerId) =
      some { marker with
             dislikes := marker.dislikes + 1,
             expires_at := match marker.expires_at with
               | none => none
               | some t => some (t - BASE_LIFESPAN_MS),
             last_interaction := now } := by
  simp only [handleDislike_found s markerId now marker hci hgate hfind]
  have hid : (marker.id == markerId) = true := by
    simpa using List.find?_some hfind
  rw [find?_map_of_pres (fun m => m.id == markerId) _ ?hp s.markers, hfind,
    Option.map_some', if_pos hid]
  case hp =>
    intro x
    by_cases hx : (x.id == markerId) = true
    · rw [if_pos hx]
    · rw [if_neg hx]

/-- C4: a like on a photo the session has not yet interacted with and
which is present in the store: when the photo is FINITE its `expires_at`
grows by exactly BASE_LIFESPAN (168 hours) and its `likes` grows by 1;
when it is INFINITE its `likes` grows by 1 and `expires_at` stays
`null`. -/
theorem c4_like_effect (s : AppState) (markerId : Nat) (now : Time)
    (marker : PhotoMarker)
    (hci : s.cardInteractions.lookup markerId = none)
    (hfind : s.markers.find? (fun m => m.id == markerId) = some marker) :
    (∀ t, marker.expires_at = some t →
      (handleLike s markerId now).markers.find? (fun m => m.id == markerId) =
        some { marker with
               likes := marker.likes + 1,
               expires_at := some (t + BASE_LIFESPAN_MS),
               last_interaction := now }) ∧
    (marker.expires_at = none →
      (handleLike s markerId now).markers.find? (fun m => m.id == markerId) =
        some { marker with
               likes := marker.likes + 1,
               last_interaction := now }) ∧
    (handleLike s markerId now).userLikes = s.userLikes + 1 := by
  refine ⟨?_, ?_, ?_⟩
  · intro t ht
    rw [handleLike_find? s markerId now marker hci hfind, ht]
  · intro ht
    rw [handleLike_find? s markerId now marker hci hfind, ht]
  · rw [handleLike_found s markerId now marker hci hfind]

/-- C4 witness: liking the finite photo of a fresh session adds 168
hours to its expiry and one like. -/
theorem c4_like_effect_witness :
    (handleLike ⟨[demoMarker 1 2 0 (some 5000)], [], 0, 0⟩ 1 7).markers.find?
        (fun m => m.id == 1) =
      some { demoMarker 1 2 0 (some 5000) with
             likes := 3,
             expires_at := some (5000 + BASE_LIFESPAN_MS),
             last_interaction := 7 } :=
  (c4_like_effect ⟨[demoMarker 1 2 0 (some 5000)], [], 0, 0⟩ 1 7
    (demoMarker 1 2 0 (some 5000)) rfl rfl).1 5000 rfl

/-- C5 (amended): when the actor has not already interacted with the
photo and their cumulative likes strictly exceed their cumulative
dislikes, a dislike on a FINITE photo decreases its `expires_at` by
exactly BASE_LIFESPAN and increments `dislikes`; when the actor's likes
do not exceed their dislikes the attempt is rejected and the state is
completely unchanged. -/
theorem c5_dislike_gate :
    (∀ (s : AppState) (markerId : Nat) (now : Time) (marker : PhotoMarker),
      s.cardInteractions.lookup markerId = none →
      s.userDislikes < s.userLikes →
      s.markers.find? (fun m => m.id == markerId) = some marker →
      (∀ t, marker.expires_at = some t →
        (handleDislike s markerId now).markers.find? (fun m => m.id == markerId) =
          some { marker with
                 dislikes := marker.dislikes + 1,
                 expires_at := some (t - BASE_LIFESPAN_MS),
                 last_interaction := now }) ∧
      (handleDislike s markerId now).userDislikes = s.userDislikes + 1) ∧
    (∀ (s : AppState) (markerId : Nat) (now : Time),
      s.userLikes ≤ s.userDislikes → handleDislike s markerId now = s) := by
  constructor
  · intro s markerId now marker hci hgate hfind
    refine ⟨?_, ?_⟩
    · intro t ht
      rw [handleDislike_find? s markerId now marker hci hgate hfind, ht]
    · rw [handleDislike_found s markerId now marker hci hgate hfind]
  · intro s markerId now hle
    unfold handleDislike
    cases hci : s.cardInteractions.lookup markerId with
    | some v => rfl
    | none => rw [if_pos hle]

/-- C5 witness: a gated dislike on a fresh session's finite photo takes
168 hours off the expiry and adds one dislike, and an actor with
`userLikes = 0 = userDislikes` is rejected without any change. -/
theorem c5_dislike_gate_witness :
    (handleDislike ⟨[demoMarker 1 0 0 (some 5000)], [], 1, 0⟩ 1 7).markers.find?
        (fun m => m.id == 1) =
      some { demoMarker 1 0 0 (some 5000) with
             dislikes := 1,
             expires_at := some (5000 - BASE_LIFESPAN_MS),
             last_interaction := 7 } ∧
    handleDislike ⟨[demoMarker 1 0 0 (some 5000)], [], 0, 0⟩ 1 7 =
      ⟨[demoMarker 1 0 0 (some 5000)], [], 0, 0⟩ :=
  ⟨(c5_dislike_gate.1 ⟨[demoMarker 1 0 0 (some 5000)], [], 1, 0⟩ 1 7
      (demoMarker 1 0 0 (some 5000)) rfl (by decide) rfl).1 5000 rfl,
   c5_dislike_gate.2 ⟨[demoMarker 1 0 0 (some 5000)], [], 0, 0⟩ 1 7 (by decide)⟩

/-- C10: the dislike adjustment subtracts BASE_LIFESPAN from the expiry
unconditionally, with no lower clamp: every gated dislike on a finite
photo yields exactly `expires_at - BASE_LIFESPAN`, and on a concrete
photo created at time 1000 with expiry 2000 a single gated dislike at
time 1500 leaves an `expires_at` strictly earlier than the current time
and than the photo's creation time, making the photo immediately
expired for `isMarkerExpired`. -/
theorem c10_dislike_unclamped :
    (∀ (s : AppState) (markerId : Nat) (now : Time) (marker : PhotoMarker) (t : Time),
      s.cardInteractions.lookup markerId = none →
      s.userDislikes < s.userLikes →
      s.markers.find? (fun m => m.id == markerId) = some marker →
      marker.expires_at = some t →
      (handleDislike s markerId now).markers.find? (fun m => m.id == markerId) =
        some { marker with
               dislikes := marker.dislikes + 1,
               expires_at := some (t - BASE_LIFESPAN_MS),
               last_interaction := now }) ∧
    (∃ m ∈ (handleDislike demoStateC10 1 1500).markers,
      m.timestamp = 1000 ∧ m.expires_at = some (2000 - BASE_LIFESPAN_MS) ∧
      (2000 - BASE_LIFESPAN_MS : Int) < 1500 ∧
      (2000 - BASE_LIFESPAN_MS : Int) < m.timestamp ∧
      isMarkerExpired 1500 m = true) := by
  constructor
  · intro s markerId now marker t hci hgate hfind ht
    rw [handleDislike_find? s markerId now marker hci hgate hfind, ht]
  · decide

/-- C10 witness: the concrete gated dislike of the demonstration
session. -/
theorem c10_dislike_unclamped_witness :
    (handleDislike demoStateC10 1 1500).markers.find? (fun m => m.id == 1) =
      some { demoMarkerC10 with
             dislikes := 1,
             expires_at := some (2000 - BASE_LIFESPAN_MS),
             last_interaction := 1500 } :=
  c10_dislike_unclamped.1 demoStateC10 1 1500 demoMarkerC10 2000 rfl (by decide) rfl rfl

/-- Sweep with a successful fetch and nothing strictly expired: early
return with `deleted: 0`, nothing touched (the delete step, and hence a
delete error, is never reached). -/
theorem sweep_empty_case (st : List PhotoMarker) (blobs : List String) (now : Time)
    (de : Option String) (aok : String → Bool)
    (he : st.filter (isExpiredForSweep now) = []) :
    sweep st blobs now none de aok = ⟨st, blobs, SweepResponse.ok 0⟩ := by
  simp only [sweep]
  rw [he]
  rfl

/-- Sweep with a successful fetch, at least one strictly expired row and
a failing batch delete: assets are attempted, the store is untouched and
the error is returned. -/
theorem sweep_deleteError_case (st : List PhotoMarker) (blobs : List String)
    (now : Time) (e : String) (aok : String → Bool)
    (hne : st.filter (isExpiredForSweep now) ≠ []) :
    sweep st blobs now none (some e) aok =
      ⟨st,
       blobs.filter (fun p =>
         !(((st.filter (isExpiredForSweep now)).map sweepAssetPaths).flatten.contains p
           && aok p)),
       SweepResponse.err e⟩ := by
  simp only [sweep]
  rw [if_neg (by simpa [List.isEmpty_iff] using hne)]

/-- Sweep with a successful fetch, at least one strictly expired row and
a successful batch delete. -/
theorem sweep_delete_case (st : List PhotoMarker) (blobs : List String)
    (now : Time) (aok : String → Bool)
    (hne : st.filter (isExpiredForSweep now) ≠ []) :
    sweep st blobs now none none aok =
      ⟨st.filter (fun m =>
         !((st.filter (isExpiredForSweep now)).map (fun m => m.id)).contains m.id),
       blobs.filter (fun p =>
         !(((st.filter (isExpiredForSweep now)).map sweepAssetPaths).flatten.contains p
           && aok p)),
       SweepResponse.ok ((st.filter (isExpiredForSweep now)).map (fun m => m.id)).length⟩ := by
  simp only [sweep]
  rw [if_neg (by simpa [List.isEmpty_iff] using hne)]

/-- After a fully successful sweep no surviving row is strictly expired
at the sweep time. -/
theorem sweep_store_not_expired (st : List PhotoMarker) (blobs : List String)
    (now : Time) (aok : String → Bool) :
    ∀ m ∈ (sweep st blobs now none none aok).store,
      isExpiredForSweep now m = false := by
  by_cases he : st.filter (isExpiredForSweep now) = []
  · rw [sweep_empty_case st blobs now none aok he]
    intro m hm
    have h := List.filter_eq_nil_iff.mp he m hm
    exact Bool.eq_false_iff.mpr h
  · rw [sweep_delete_case st blobs now aok he]
    intro m hm
    obtain ⟨hmst, hmb⟩ := List.mem_filter.mp hm
    cases hexp : isExpiredForSweep now m with
    | false => rfl
    | true =>
      exfalso
      have hmem : m ∈ st.filter (isExpiredForSweep now) :=
        List.mem_filter.mpr ⟨hmst, hexp⟩
      have hidmem : m.id ∈ (st.filter (isExpiredForSweep now)).map (fun m => m.id) :=
        List.mem_map.mpr ⟨m, hmem, rfl⟩
      rw [Bool.not_eq_true'] at hmb
      rw [List.contains, (List.elem_iff).mpr hidmem] at hmb
      exact Bool.noConfusion hmb

/-- C6 (amended): with pairwise-distinct row ids, a sweep with a
successful fetch and delete removes exactly the rows whose non-null
`expires_at` is strictly earlier than the sweep time, and reports their
count. -/
theorem c6_sweep_deletes_strictly_expired (st : List PhotoMarker)
    (blobs : List String) (now : Time) (aok : String → Bool)
    (hids : (st.map (fun m => m.id)).Nodup) :
    (sweep st blobs now none none aok).store =
      st.filter (fun m => !isExpiredForSweep now m) ∧
    (sweep st blobs now none none aok).resp =
      SweepResponse.ok (st.filter (isExpiredForSweep now)).length := by
  by_cases he : st.filter (isExpiredForSweep now) = []
  · rw [sweep_empty_case st blobs now none aok he, he]
    constructor
    · symm
      apply List.filter_eq_self.mpr
      intro a ha
      have h := List.filter_eq_nil_iff.mp he a ha
      rw [Bool.not_eq_true', Bool.eq_false_iff]
      exact h
    · rfl
  · rw [sweep_delete_case st blobs now aok he]
    constructor
    · apply List.filter_congr
      intro m hm
      have key : ((st.filter (isExpiredForSweep now)).map (fun m => m.id)).contains m.id
          = isExpiredForSweep now m := by
        cases hexp : isExpiredForSweep now m with
        | true =>
          have hidmem : m.id ∈ (st.filter (isExpiredForSweep now)).map (fun m => m.id) :=
            List.mem_map.mpr ⟨m, List.mem_filter.mpr ⟨hm, hexp⟩, rfl⟩
          rw [List.contains, (List.elem_iff).mpr hidmem]
        | false =>
          cases hc : ((st.filter (isExpiredForSweep now)).map (fun m => m.id)).contains m.id with
          | false => rfl
          | true =>
            exfalso
            rw [List.contains] at hc
            have hidmem := (List.elem_iff).mp hc
            obtain ⟨m', hm', hid⟩ := List.mem_map.mp hidmem
            obtain ⟨hm'st, hm'exp⟩ := List.mem_filter.mp hm'
            have heq : m' = m := List.inj_on_of_nodup_map hids hm'st hm hid
            rw [heq, hexp] at hm'exp
            exact Bool.noConfusion hm'exp
      rw [key]
    · simp only [List.length_map]

/-- C6 witness: the sweep of the eight-photo demonstration store. -/
theorem c6_sweep_deletes_strictly_expired_witness :
    (sweep demoStore8 [] 1000 none none (fun _ => true)).store =
      demoStore8.filter (fun m => !isExpiredForSweep 1000 m) ∧
    (sweep demoStore8 [] 1000 none none (fun _ => true)).resp =
      SweepResponse.ok (demoStore8.filter (isExpiredForSweep 1000)).length :=
  c6_sweep_deletes_strictly_expired demoStore8 [] 1000 (fun _ => true) (by decide)

/-- C7: rerunning the sweep right after a fully successful sweep, with
no new expirations (same sweep time), answers `deleted: 0` and changes
nothing; and a sweep whose fetch succeeds and finds no expired row
answers `deleted: 0` without error, whatever the batch-delete outcome
would have been. -/
theorem c7_sweep_idempotent :
    (∀ (st : List PhotoMarker) (blobs : List String) (now : Time)
        (aok aok2 : String → Bool) (de : Option String),
      sweep (sweep st blobs now none none aok).store
        (sweep st blobs now none none aok).blobs now none de aok2 =
        ⟨(sweep st blobs now none none aok).store,
         (sweep st blobs now none none aok).blobs, SweepResponse.ok 0⟩) ∧
    (∀ (st : List PhotoMarker) (blobs : List String) (now : Time)
        (de : Option String) (aok : String → Bool),
      (∀ m ∈ st, isExpiredForSweep now m = false) →
      sweep st blobs now none de aok = ⟨st, blobs, SweepResponse.ok 0⟩) := by
  have hempty : ∀ (st : List PhotoMarker) (blobs : List String) (now : Time)
      (de : Option String) (aok : String → Bool),
      (∀ m ∈ st, isExpiredForSweep now m = false) →
      sweep st blobs now none de aok = ⟨st, blobs, SweepResponse.ok 0⟩ := by
    intro st blobs now de aok h
    apply sweep_empty_case
    apply List.filter_eq_nil_iff.mpr
    intro a ha
    rw [h a ha]
    exact Bool.false_ne_true
  exact ⟨fun st blobs now aok aok2 de =>
    hempty _ _ _ _ _ (sweep_store_not_expired st blobs now aok), hempty⟩

/-- C7 witness: a sweep over an empty store answers `deleted: 0` even
when the batch delete would have failed. -/
theorem c7_sweep_idempotent_witness :
    sweep [] [] 0 none (some "boom") (fun _ => true) =
      ⟨[], [], SweepResponse.ok 0⟩ :=
  c7_sweep_idempotent.2 [] [] 0 (some "boom") (fun _ => true) (by decide)

/-- C8: a fetch error aborts the sweep before anything is touched and is
returned to the caller; a batch-delete error (reachable whenever some
row is strictly expired) is returned and leaves every photo record in
place; and the outcome of the asset removals (the success function) has
no influence on the surviving records or on the response — asset
failures never block the record deletion. -/
theorem c8_sweep_error_handling :
    (∀ (st : List PhotoMarker) (blobs : List String) (now : Time) (e : String)
        (de : Option String) (aok : String → Bool),
      sweep st blobs now (some e) de aok = ⟨st, blobs, SweepResponse.err e⟩) ∧
    (∀ (st : List PhotoMarker) (blobs : List String) (now : Time) (e : String)
        (aok : String → Bool),
      (∃ m ∈ st, isExpiredForSweep now m = true) →
      (sweep st blobs now none (some e) aok).store = st ∧
      (sweep st blobs now none (some e) aok).resp = SweepResponse.err e) ∧
    (∀ (st : List PhotoMarker) (blobs : List String) (now : Time)
        (fe de : Option String) (a1 a2 : String → Bool),
      (sweep st blobs now fe de a1).store = (sweep st blobs now fe de a2).store ∧
      (sweep st blobs now fe de a1).resp = (sweep st blobs now fe de a2).resp) := by
  refine ⟨fun _ _ _ _ _ _ => rfl, ?_, ?_⟩
  · intro st blobs now e aok hex
    have hne : st.filter (isExpiredForSweep now) ≠ [] := by
      obtain ⟨m, hm, hexp⟩ := hex
      intro hnil
      exact List.filter_eq_nil_iff.mp hnil m hm hexp
    rw [sweep_deleteError_case st blobs now e aok hne]
    exact ⟨rfl, rfl⟩
  · intro st blobs now fe de a1 a2
    cases fe with
    | some e => exact ⟨rfl, rfl⟩
    | none =>
      by_cases he : st.filter (isExpiredForSweep now) = []
      · rw [sweep_empty_case st blobs now de a1 he, sweep_empty_case st blobs now de a2 he]
        exact ⟨rfl, rfl⟩
      · cases de with
        | some e =>
          rw [sweep_deleteError_case st blobs now e a1 he,
            sweep_deleteError_case st blobs now e a2 he]
          exact ⟨rfl, rfl⟩
        | none =>
          rw [sweep_delete_case st blobs now a1 he, sweep_delete_case st blobs now a2 he]
          exact ⟨rfl, rfl⟩

/-- C8 witness: a failing batch delete on the eight-photo store is
reported and deletes no record. -/
theorem c8_sweep_error_handling_witness :
    (sweep demoStore8 [] 1000 none (some "boom") (fun _ => true)).store = demoStore8 ∧
    (sweep demoStore8 [] 1000 none (some "boom") (fun _ => true)).resp =
      SweepResponse.err "boom" :=
  c8_sweep_error_handling.2.1 demoStore8 [] 1000 "boom" (fun _ => true) (by decide)

/-- A like preserves the all-null-expiry property of the store: when the
liked photo's expiry is null the write keeps it null. -/
theorem handleLike_allInfinite (s : AppState) (markerId : Nat) (now : Time)
    (h : ∀ m ∈ s.markers, m.expires_at = none) :
    ∀ m ∈ (handleLike s markerId now).markers, m.expires_at = none := by
  unfold handleLike
  cases hci : s.cardInteractions.lookup markerId with
  | some v => exact h
  | none =>
    cases hfind : s.markers.find? (fun m => m.id == markerId) with
    | none => exact h
    | some marker =>
      have hnone : marker.expires_at = none :=
        h marker (List.mem_of_find?_eq_some hfind)
      intro m hm
      obtain ⟨m0, hm0, rfl⟩ := List.mem_map.mp hm
      by_cases hx : (m0.id == markerId) = true
      · rw [if_pos hx]
        simp [hnone]
      · rw [if_neg hx]
        exact h m0 hm0

/-- A dislike preserves the all-null-expiry property of the store. -/
theorem handleDislike_allInfinite (s : AppState) (markerId : Nat) (now : Time)
    (h : ∀ m ∈ s.markers, m.expires_at = none) :
    ∀ m ∈ (handleDislike s markerId now).markers, m.expires_at = none := by
  unfold handleDislike
  cases hci : s.cardInteractions.lookup markerId with
  | some v => exact h
  | none =>
    by_cases hgate : s.userLikes ≤ s.userDislikes
    · rw [if_pos hgate]
      exact h
    · rw [if_neg hgate]
      cases hfind : s.markers.find? (fun m => m.id == markerId) with
      | none => exact h
      | some marker =>
        have hnone : marker.expires_at = none :=
          h marker (List.mem_of_find?_eq_some hfind)
        intro m hm
        obtain ⟨m0, hm0, rfl⟩ := List.mem_map.mp hm
        by_cases hx : (m0.id == markerId) = true
        · rw [if_pos hx]
          simp [hnone]
        · rw [if_neg hx]
          exact h m0 hm0

/-- The sweep only deletes rows, so it preserves the all-null-expiry
property of the store. -/
theorem sweep_allInfinite (st : List PhotoMarker) (blobs : List String)
    (now : Time) (fe de : Option String) (aok : String → Bool)
    (h : ∀ m ∈ st, m.expires_at = none) :
    ∀ m ∈ (sweep st blobs now fe de aok).store, m.expires_at = none := by
  cases fe with
  | some e => exact h
  | none =>
    by_cases he : st.filter (isExpiredForSweep now) = []
    · rw [sweep_empty_case st blobs now de aok he]
      exact h
    · cases de with
      | some e =>
        rw [sweep_deleteError_case st blobs now e aok he]
        exact h
      | none =>
        rw [sweep_delete_case st blobs now aok he]
        intro m hm
        exact h m (List.mem_filter.mp hm).1

/-- Store invariant: every row of every reachable store has a null
`expires_at`. No code path ever writes a non-null `expires_at`: creation
writes `null`, like/dislike keep `null` when the row's expiry is `null`
(and every reachable row's is), and the Reaper only deletes rows. -/
theorem storeReach_allInfinite (st : List PhotoMarker) (h : StoreReach st) :
    ∀ m ∈ st, m.expires_at = none := by
  induction h with
  | init =>
    intro m hm
    exact absurd hm (List.not_mem_nil m)
  | create st newId pos photoUrl thumbUrl now userInitials h3Index h ih =>
    intro m hm
    rcases List.mem_cons.mp hm with hm | hm
    · rw [hm]
      rfl
    · exact ih m hm
  | like st ci ul ud markerId now h ih =>
    exact handleLike_allInfinite ⟨st, ci, ul, ud⟩ markerId now ih
  | dislike st ci ul ud markerId now h ih =>
    exact handleDislike_allInfinite ⟨st, ci, ul, ud⟩ markerId now ih
  | reap st blobs now fe de aok h ih =>
    exact sweep_allInfinite st blobs now fe de aok ih

/-- C2: in every reachable store state, every photo of a zone whose
population (count of non-expired photos sharing its `h3_res7` cell) is
at most 7 has `expires_at = null`; and a photo created when the zone
population including it is at most 7 starts INFINITE. Both hold because
the code never writes a non-null `expires_at` at all (the 8-photo
competition transition is absent), so every reachable photo is INFINITE
whatever its zone's population. -/
theorem c2_small_zone_infinite :
    (∀ st : List PhotoMarker, StoreReach st → ∀ (now : Time) (z : String),
      zonePopulation st z now ≤ 7 →
      ∀ m ∈ st, m.h3_res7 = some z → m.expires_at = none) ∧
    (∀ (st : List PhotoMarker) (newId : Nat) (pos : Int × Int)
        (photoUrl thumbUrl : String) (now : Time) (userInitials h3Index : String)
        (t : Time),
      zonePopulation (capturePhoto st newId pos photoUrl thumbUrl now userInitials h3Index)
          h3Index t ≤ 7 →
      (newMarker newId pos photoUrl thumbUrl now userInitials h3Index).expires_at = none) := by
  constructor
  · intro st h now z _ m hm _
    exact storeReach_allInfinite st h m hm
  · intro st newId pos photoUrl thumbUrl now userInitials h3Index t _
    rfl

/-- C2 witness: a store holding one freshly created photo is reachable,
its zone has population 1 ≤ 7, and the photo's expiry is null. -/
theorem c2_small_zone_infinite_witness :
    (newMarker 1 (0, 0) "p" "t" 0 "AB" "z1").expires_at = none :=
  c2_small_zone_infinite.1 (capturePhoto [] 1 (0, 0) "p" "t" 0 "AB" "z1")
    (StoreReach.create [] 1 (0, 0) "p" "t" 0 "AB" "z1" StoreReach.init) 0 "z1"
    (by decide) (newMarker 1 (0, 0) "p" "t" 0 "AB" "z1")
    (List.mem_singleton.mpr rfl) rfl

end PhotoMap
